import Mathlib

/-!
Verification of the DCA (dollar-cost-averaging) execution engine:
a shallow embedding of the scheduler, swap pipeline, custody manager,
transaction executor and vault integration, with theorems settling the
specification claims about them.

Machine integers of the source (JavaScript BigInt for token amounts,
epoch milliseconds for timestamps) are modelled as Nat; BigInt in the
source is arbitrary precision, so no wrap-around modelling is needed.
External collaborators (chain RPC, quoting service, plan store rows)
are supplied as explicit oracle values so that every function is
executable and deterministic.
-/

namespace DCA

/-- Split a character list at every occurrence of the separator
(structural analogue of String.splitOn for a single character). -/
def splitOnCharList (sep : Char) : List Char → List (List Char)
  | [] => [[]]
  | c :: cs =>
    let rest := splitOnCharList sep cs
    if c = sep then [] :: rest
    else
      match rest with
      | [] => [[c]]
      | r :: rs => (c :: r) :: rs

/-- Value of a nonempty all-digit character list. -/
def digitsVal? (l : List Char) : Option Nat :=
  if l.isEmpty then none
  else if l.all (fun c => c.isDigit) then
    some (l.foldl (fun n c => n * 10 + (c.toNat - 48)) 0)
  else none

/-- Parse a nonempty all-digit string into a Nat (the integer part of the
decimal strings the source feeds to parseUnits / BigInt). -/
def digitsToNat? (s : String) : Option Nat :=
  digitsVal? s.toList

/-- Uppercase a string character by character (String.toUpper). -/
def toUpperStr (s : String) : String :=
  String.mk (s.toList.map Char.toUpper)

/-- Lowercase a string character by character (String.toLower). -/
def toLowerStr (s : String) : String :=
  String.mk (s.toList.map Char.toLower)

/-- Whether pre is a prefix of s (String.startsWith). -/
def startsWithStr (s pre : String) : Bool :=
  pre.toList.isPrefixOf s.toList

/-- Trim surrounding whitespace (String.trim). -/
def trimStr (s : String) : String :=
  String.mk
    (((s.toList.dropWhile (fun c => c.isWhitespace)).reverse.dropWhile
      (fun c => c.isWhitespace)).reverse)

/-- viem parseUnits: convert a human decimal string to atomic units at the
given number of decimals. Returns none where the source call would throw
on a malformed number (or on more fractional digits than the token has). -/
def parseUnitsStr (s : String) (decimals : Nat) : Option Nat :=
  match splitOnCharList '.' s.toList with
  | [i] => (digitsVal? i).map (fun n => n * 10 ^ decimals)
  | [i, f] =>
    match digitsVal? i, digitsVal? f with
    | some iv, some fv =>
      if f.length ≤ decimals then
        some (iv * 10 ^ decimals + fv * 10 ^ (decimals - f.length))
      else none
    | _, _ => none
  | _ => none

/-- Strip trailing zero characters (used by formatUnitsStr for the
fractional part, as viem formatUnits does). -/
def trimTrailingZeros (s : String) : String :=
  String.mk ((s.toList.reverse.dropWhile (fun c => c = '0')).reverse)

/-- Left-pad a digit string with zeros to the given width. -/
def padLeftZeros (s : String) (n : Nat) : String :=
  String.mk (List.replicate (n - s.length) '0') ++ s

/-- viem formatUnits: atomic units back to a human decimal string, with the
fraction trimmed of trailing zeros and omitted when zero. -/
def formatUnitsStr (v : Nat) (decimals : Nat) : String :=
  let ip := v / 10 ^ decimals
  let fp := v % 10 ^ decimals
  if fp = 0 then toString ip
  else toString ip ++ "." ++ trimTrailingZeros (padLeftZeros (toString fp) decimals)

/-- JavaScript parseFloat restricted to the plain decimal strings the zod
schemas admit, represented exactly as a scaled integer: some (v, k) means
the value v / 10 ^ k; none models the NaN case. -/
def parseDecimalScaled? (s : String) : Option (Nat × Nat) :=
  match splitOnCharList '.' s.toList with
  | [i] => (digitsVal? i).map (fun n => (n, 0))
  | [i, f] =>
    match digitsVal? i, digitsVal? f with
    | some iv, some fv => some (iv * 10 ^ f.length + fv, f.length)
    | _, _ => none
  | _ => none

/-- The comparison parseFloat(s) < 0.3 on the scaled representation:
v / 10 ^ k < 3 / 10 exactly when 10 v < 3 * 10 ^ k. -/
def ltThreeTenths (v : Nat × Nat) : Bool :=
  10 * v.1 < 3 * 10 ^ v.2

/-- safeToHuman from executeDCASwap.ts: strip one leading plus sign and trim. -/
def safeToHuman (value : String) : String :=
  trimStr (if startsWithStr value "+" then String.mk (value.toList.drop 1) else value)

/-- Whether pat occurs as a contiguous substring of l. -/
def listContains (l pat : List Char) : Bool :=
  match l with
  | [] => pat.isEmpty
  | _ :: t => pat.isPrefixOf l || listContains t pat

/-- Substring containment, for the retry predicates of the spec. -/
def containsSubstr (s pat : String) : Bool :=
  listContains s.toList pat.toList

/-- Nonce-shaped error predicate described by the spec for the transaction
executor retry policy. -/
def isNonceShapedError (msg : String) : Bool :=
  containsSubstr msg "nonce" || containsSubstr msg "transaction underpriced" ||
    containsSubstr msg "already known"

/-- A fallible result: ok value or a thrown error message. -/
inductive Outcome (α : Type) where
  | ok (val : α)
  | err (msg : String)
deriving DecidableEq, Repr

/-- DcaStatus enum of the plan store. -/
inductive DcaStatus where
  | ACTIVE
  | PAUSED
  | COMPLETED
  | CANCELLED
deriving DecidableEq, Repr

/-- ExecutionHistory status enum. -/
inductive ExecStatus where
  | SUCCESS
  | FAILED
  | PENDING
deriving DecidableEq, Repr

/-- DcaPlan row. Timestamps are epoch milliseconds; amount and slippage are
kept as the decimal strings the source stores. -/
structure DcaPlan where
  id : String
  userAddress : String
  fromToken : String
  toToken : String
  amount : String
  intervalMinutes : Nat
  durationWeeks : Nat
  slippage : String
  status : DcaStatus
  executionCount : Nat
  totalExecutions : Nat
  nextExecution : Option Nat
  updatedAt : Nat
deriving DecidableEq, Repr

/-- ExecutionHistory row as written by the pipeline. -/
structure ExecRecord where
  planId : Option String
  fromAmount : String
  toAmount : String
  exchangeRate : String
  gasFee : Option String
  txHash : Option String
  status : ExecStatus
  errorMessage : Option String
  vaultAddress : Option String
  shareTokens : Option String
  depositTxHash : Option String
deriving DecidableEq, Repr

/-- TokenInfo descriptor from the token registry. -/
structure TokenInfo where
  chainId : Nat
  address : String
  decimals : Nat
  symbol : String
  name : String
deriving DecidableEq, Repr

/-- findTokenDetail from executeDCASwap.ts: uppercase the symbol, look it up
in the token map, then pick the entry for the requested chain. -/
def findTokenDetail (tokenSymbol : String) (tokenMap : List (String × List TokenInfo))
    (chainId : Nat := 42161) : Option TokenInfo :=
  let upperSymbol := toUpperStr tokenSymbol
  match tokenMap.find? (fun kv => kv.1 == upperSymbol) with
  | none => none
  | some kv =>
    if kv.2.isEmpty then none
    else kv.2.find? (fun token => token.chainId == chainId)

/-- Plan-row update performed after a successful pipeline run
(executeDCASwap.ts and transactionSigningHook.ts, identical logic):
increment executionCount; when the new count reaches totalExecutions set
COMPLETED with no next execution, else reschedule now + intervalMinutes. -/
def updatePlanAfterSuccess (plan : DcaPlan) (now : Nat) : DcaPlan :=
  let newExecutionCount := plan.executionCount + 1
  let isCompleted := plan.totalExecutions ≤ newExecutionCount
  { plan with
    executionCount := newExecutionCount
    nextExecution := if isCompleted then none else some (now + plan.intervalMinutes * 60 * 1000)
    status := if isCompleted then DcaStatus.COMPLETED else DcaStatus.ACTIVE
    updatedAt := now }

/-- TransactionPlan value returned by the quoting service (simplified
ember-schemas shape used by transactionExecutor.ts). -/
structure TransactionPlan where
  chainId : String
  «to» : String
  value : Option String
  data : Option String
  gas : Option String
  gasPrice : Option String
  maxFeePerGas : Option String
  maxPriorityFeePerGas : Option String
  nonce : Option String
deriving DecidableEq, Repr

/-- Estimation block of the swapTokens response. -/
structure Estimation where
  baseTokenDelta : String
  quoteTokenDelta : String
  effectivePrice : String
deriving DecidableEq, Repr

/-- swapTokens response as consumed by executeDCASwapTool. -/
structure SwapResponse where
  transactions : List TransactionPlan
  estimation : Option Estimation
deriving DecidableEq, Repr

/-- Result of DCATransactionExecutor.executeDCASwap: the final transaction
hash and the summed receipt gas units. The returned record carries no ETH
cost field. -/
structure DcaExecResult where
  txHash : String
  gasUsed : Nat
deriving DecidableEq, Repr

/-- Arguments of executeDCASwapTool (ExecuteDCASwapParams). -/
structure ExecArgs where
  planId : String
  fromToken : String
  toToken : String
  amount : String
  userAddress : String
  slippage : String
deriving DecidableEq, Repr

/-- The swapTokens request assembled by the tool and sent to the quoting
service. -/
structure QuoteRequest where
  orderType : String
  baseChainId : String
  baseAddress : String
  quoteChainId : String
  quoteAddress : String
  amount : String
  recipient : String
  slippageTolerance : String
deriving DecidableEq, Repr

/-- Task value returned by the tool (createSuccessTask / createErrorTask). -/
inductive TaskOutcome where
  | completed (msg : String)
  | failed (msg : String)
deriving DecidableEq, Repr

/-- Oracle context for one executeDCASwapTool invocation: configuration
flags, the token registry, the external quote and executor behaviours, the
plan row the follow-up findUnique returns, and the wall clock. -/
structure ToolEnv where
  executionEnabled : Bool
  mcpAvailable : Bool
  tokenMap : List (String × List TokenInfo)
  quoteResult : QuoteRequest → Outcome SwapResponse
  executorResult : List TransactionPlan → Outcome DcaExecResult
  planRow : Option DcaPlan
  now : Nat

/-- Observable effects of one executeDCASwapTool invocation: the quote
request issued (if any), the ExecutionHistory rows created, the plan row
written back (if any), and the returned task. -/
structure ToolOutcome where
  quoteRequest : Option QuoteRequest
  records : List ExecRecord
  updatedPlan : Option DcaPlan
  task : TaskOutcome
deriving Repr

/-- The FAILED ExecutionHistory row created in the catch handler of
executeDCASwapTool. -/
def failedExecRecord (args : ExecArgs) (e : String) : ExecRecord :=
  { planId := some args.planId
    fromAmount := args.amount
    toAmount := "0"
    exchangeRate := "0"
    gasFee := none
    txHash := none
    status := ExecStatus.FAILED
    errorMessage := some e
    vaultAddress := none
    shareTokens := none
    depositTxHash := none }

/-- The swapTokens request built by executeDCASwapTool (orderType
MARKET_SELL, token uids from the registry, atomic amount, recipient is the
end user, slippageTolerance passed through from the arguments). -/
def mkQuoteRequest (fromTok toTok : TokenInfo) (atomicAmount : Nat) (args : ExecArgs) :
    QuoteRequest :=
  { orderType := "MARKET_SELL"
    baseChainId := toString fromTok.chainId
    baseAddress := fromTok.address
    quoteChainId := toString toTok.chainId
    quoteAddress := toTok.address
    amount := toString atomicAmount
    recipient := args.userAddress
    slippageTolerance := args.slippage }

/-- Quote call and transaction execution of executeDCASwapTool: call the
quoting service, fail when it errors or returns no transactions, then run
the executor on the returned transactions. -/
def toolQuoteStage (env : ToolEnv) (req : QuoteRequest) :
    Outcome (SwapResponse × DcaExecResult) :=
  match env.quoteResult req with
  | Outcome.err e => Outcome.err ("Failed to get swap plan: " ++ e)
  | Outcome.ok resp =>
    if resp.transactions.isEmpty then
      Outcome.err "No transactions received from swap plan"
    else
      match env.executorResult resp.transactions with
      | Outcome.err e => Outcome.err e
      | Outcome.ok er => Outcome.ok (resp, er)

/-- The try-block of executeDCASwapTool up to the point of recording:
validation, token resolution, amount parsing, quote call, transaction
execution. Returns the quote request that was issued (if reached) and
either the data of the successful run or the thrown error message. -/
def toolStages (env : ToolEnv) (args : ExecArgs) :
    Option QuoteRequest × Outcome (SwapResponse × DcaExecResult) :=
  if !env.executionEnabled then
    (none, Outcome.err "Transaction execution not enabled - PRIVATE_KEY not configured")
  else if !env.mcpAvailable then
    (none, Outcome.err "Ember MCP client not available")
  else
    match findTokenDetail args.fromToken env.tokenMap 42161 with
    | none => (none, Outcome.err ("Could not resolve fromToken \"" ++ args.fromToken ++ "\""))
    | some fromTok =>
      match findTokenDetail args.toToken env.tokenMap 42161 with
      | none => (none, Outcome.err ("Could not resolve toToken \"" ++ args.toToken ++ "\""))
      | some toTok =>
        match parseUnitsStr args.amount fromTok.decimals with
        | none => (none, Outcome.err ("Invalid amount: " ++ args.amount))
        | some atomicAmount =>
          let req := mkQuoteRequest fromTok toTok atomicAmount args
          (some req, toolQuoteStage env req)

/-- The SUCCESS ExecutionHistory row created by executeDCASwapTool. Note
gasFee stores toString of the executor gasUsed (summed receipt gas units). -/
def successExecRecord (args : ExecArgs) (resp : SwapResponse) (er : DcaExecResult) :
    ExecRecord :=
  { planId := some args.planId
    fromAmount := args.amount
    toAmount := match resp.estimation with
      | some est => safeToHuman est.quoteTokenDelta
      | none => "0"
    exchangeRate := match resp.estimation with
      | some est => safeToHuman est.effectivePrice
      | none => "0"
    gasFee := some (toString er.gasUsed)
    txHash := some er.txHash
    status := ExecStatus.SUCCESS
    errorMessage := none
    vaultAddress := none
    shareTokens := none
    depositTxHash := none }

/-- Success message of createSuccessTask in executeDCASwapTool. -/
def successMsg (args : ExecArgs) (resp : SwapResponse) (er : DcaExecResult) : String :=
  "DCA swap executed: " ++ args.amount ++ " " ++ args.fromToken ++ " → " ++
    (match resp.estimation with
      | some est => safeToHuman est.quoteTokenDelta
      | none => "0") ++ " " ++ args.toToken ++ " (tx: " ++ er.txHash ++ ")"

/-- The catch handler outcome of executeDCASwapTool: one FAILED row, no
plan update, error task carrying the message. -/
def failOut (args : ExecArgs) (qr : Option QuoteRequest) (e : String) : ToolOutcome :=
  { quoteRequest := qr
    records := [failedExecRecord args e]
    updatedPlan := none
    task := TaskOutcome.failed e }

/-- executeDCASwapTool.execute (the database-recording tool the scheduler
invokes): run the pipeline stages; on success record the SUCCESS row,
update the plan (if the follow-up findUnique returns a row) and return a
completed task; on any thrown error record the FAILED row and return an
error task. The plan store itself is modelled as reliable. -/
def executeDCASwapToolModel (env : ToolEnv) (args : ExecArgs) : ToolOutcome :=
  match toolStages env args with
  | (qr, Outcome.err e) => failOut args qr e
  | (qr, Outcome.ok (resp, er)) =>
    { quoteRequest := qr
      records := [successExecRecord args resp er]
      updatedPlan := env.planRow.map (fun p => updatePlanAfterSuccess p env.now)
      task := TaskOutcome.completed (successMsg args resp er) }

/-- Due-plan predicate of the processDuePlans query: status ACTIVE and
nextExecution non-null and ≤ now. -/
def isDuePlan (now : Nat) (p : DcaPlan) : Bool :=
  decide (p.status = DcaStatus.ACTIVE) &&
    (match p.nextExecution with
      | some t => decide (t ≤ now)
      | none => false)

/-- Sort key of the orderBy nextExecution asc clause (due plans always have
a non-null nextExecution). -/
def nextKey (p : DcaPlan) : Nat :=
  match p.nextExecution with
  | some t => t
  | none => 0

/-- Ascending nextExecution ordering used by the selection query. -/
def planOrder (a b : DcaPlan) : Prop :=
  nextKey a ≤ nextKey b

instance : DecidableRel planOrder :=
  fun a b => inferInstanceAs (Decidable (nextKey a ≤ nextKey b))

instance : IsTotal DcaPlan planOrder :=
  ⟨fun a b => Nat.le_total (nextKey a) (nextKey b)⟩

instance : IsTrans DcaPlan planOrder :=
  ⟨fun _ _ _ hab hbc => Nat.le_trans hab hbc⟩

/-- The findMany of processDuePlans: all ACTIVE plans with a non-null
nextExecution ≤ now, in ascending nextExecution order. -/
def processDuePlansSelection (db : List DcaPlan) (now : Nat) : List DcaPlan :=
  List.insertionSort planOrder (db.filter (isDuePlan now))

/-- Plan-store plus execution-history state seen by the scheduler. -/
structure SchedDB where
  plans : List DcaPlan
  execs : List ExecRecord
deriving DecidableEq, Repr

/-- findUnique on the plan table. -/
def findPlan (plans : List DcaPlan) (planId : String) : Option DcaPlan :=
  plans.find? (fun p => p.id == planId)

/-- The re-check at the top of each retry attempt of executeDCAPlan: skip
when the plan row is gone or its status is no longer ACTIVE. -/
def shouldSkipPlan (plans : List DcaPlan) (planId : String) : Bool :=
  match findPlan plans planId with
  | none => true
  | some p => !(decide (p.status = DcaStatus.ACTIVE))

/-- Result of one executeDCAPlan call in the scheduler: how many times the
tool was invoked, the resulting store state, and whether the call resolved
(true) or threw after exhausting its retries (false). -/
structure PlanRunResult where
  toolInvocations : Nat
  db : SchedDB
  resolved : Bool
deriving Repr

/-- Retry loop of executeDCAPlan (scheduler.ts): on each attempt re-read
the plan and return silently if it should be skipped; otherwise invoke the
tool; a completed task resolves, a failed task consumes one attempt. The
tool is an oracle transforming the store and producing a task. -/
def executeDCAPlanLoop (tool : SchedDB → SchedDB × TaskOutcome) (planId : String) :
    Nat → SchedDB → Nat → PlanRunResult
  | 0, db, inv => { toolInvocations := inv, db := db, resolved := false }
  | fuel + 1, db, inv =>
    if shouldSkipPlan db.plans planId then
      { toolInvocations := inv, db := db, resolved := true }
    else
      match tool db with
      | (db2, TaskOutcome.completed _) =>
        { toolInvocations := inv + 1, db := db2, resolved := true }
      | (db2, TaskOutcome.failed _) =>
        executeDCAPlanLoop tool planId fuel db2 (inv + 1)

/-- executeDCAPlan with the configured number of retry attempts. -/
def executeDCAPlanModel (db : SchedDB) (planId : String)
    (tool : SchedDB → SchedDB × TaskOutcome) (retryAttempts : Nat) : PlanRunResult :=
  executeDCAPlanLoop tool planId retryAttempts db 0

/-- Arguments the scheduler passes to executeDCASwapTool for a due plan:
every field, slippage included, is taken from the stored plan row. -/
def schedulerToolArgs (plan : DcaPlan) : ExecArgs :=
  { planId := plan.id
    fromToken := plan.fromToken
    toToken := plan.toToken
    amount := plan.amount
    userAddress := plan.userAddress
    slippage := plan.slippage }

/-- Slippage floor applied in createDCAPlanTool before its immediate first
execution: parseFloat the requested value; if NaN or below 0.3 use 0.3,
else keep the string unchanged (the argument itself defaults to 2). -/
def clampSlippage (slippage : Option String) : String :=
  let finalSlippage := slippage.getD "2"
  match parseDecimalScaled? finalSlippage with
  | none => "0.3"
  | some v => if ltThreeTenths v then "0.3" else finalSlippage

/-- In-process lifecycle state of the DCAScheduler. -/
structure SchedulerLifecycleState where
  isRunning : Bool
  intervalId : Option Nat
deriving DecidableEq, Repr

/-- Observable outcome of a startScheduler call. -/
structure StartResult where
  state : SchedulerLifecycleState
  tickPerformed : Bool
  timerCreated : Bool
  errorThrown : Option String
deriving DecidableEq, Repr

/-- startScheduler: return unchanged when already running; throw when
transaction execution is disabled; otherwise mark running, perform the
initial tick and install the interval timer. -/
def startScheduler (s : SchedulerLifecycleState) (execEnabled : Bool)
    (freshTimerId : Nat) : StartResult :=
  if s.isRunning then
    { state := s, tickPerformed := false, timerCreated := false, errorThrown := none }
  else if !execEnabled then
    { state := s, tickPerformed := false, timerCreated := false
      errorThrown := some "Transaction execution not enabled - PRIVATE_KEY required" }
  else
    { state := { isRunning := true, intervalId := some freshTimerId }
      tickPerformed := true, timerCreated := true, errorThrown := none }

/-- stopScheduler: return unchanged when not running; otherwise clear the
running flag and the interval timer. -/
def stopScheduler (s : SchedulerLifecycleState) : SchedulerLifecycleState :=
  if !s.isRunning then s
  else { isRunning := false, intervalId := none }

/-- Router address constant of executeDCASwap.ts. -/
def ROUTER_ADDRESS : String := "0xce16F69375520ab01377ce7B88f5BA8C48F8D666"

/-- Native-bridged USDC address whose amount parsing is pinned to 6
decimals in handleTokenApprovalsAndTransfer. -/
def USDC_NATIVE_ADDRESS : String := "0xaf88d065e77c8cC2239327C5EDb3A432268e5831"

/-- Maximum uint256, the unlimited approval amount. -/
def UINT256_MAX : Nat := 2 ^ 256 - 1

/-- Atomic amount computation of handleTokenApprovalsAndTransfer: the
token descriptor decimals, overridden to 6 for the documented USDC
address. -/
def custodyAtomicAmount (fromTok : TokenInfo) (amount : String) : Option Nat :=
  if fromTok.address = USDC_NATIVE_ADDRESS then parseUnitsStr amount 6
  else parseUnitsStr amount fromTok.decimals

/-- ERC-20 allowance view of the chain for the source token: owner and
spender to granted atomic amount. -/
structure ChainState where
  allowance : String → String → Nat

/-- On-chain writes the custody manager can issue. -/
inductive CustodyAction where
  | approveRouter (owner : String) (amount : Nat)
  | transferFrom (fromAddr : String) (toAddr : String) (amount : Nat)
deriving DecidableEq, Repr

/-- handleTokenApprovalsAndTransfer (executeDCASwap.ts). Self-execution
(user equals executor, compared lowercased): top up the user-to-router
allowance to UINT256_MAX when short. Separate executor: top up the
executor-to-router allowance when short, then gate on the user-to-executor
allowance — below the atomic amount throws the insufficient-approval
error before any transferFrom; otherwise transferFrom exactly the atomic
amount from the user to the executor. The retry wrappers around each chain
call re-attempt the same operation and are elided. Returns the write
actions issued and the result. -/
def handleTokenApprovalsAndTransfer (chain : ChainState) (fromTok : TokenInfo)
    (amount : String) (walletAddress executorAddress : String) :
    List CustodyAction × Outcome Unit :=
  match custodyAtomicAmount fromTok amount with
  | none => ([], Outcome.err ("Invalid amount: " ++ amount))
  | some atomicAmount =>
    if toLowerStr walletAddress = toLowerStr executorAddress then
      let userApproval := chain.allowance walletAddress ROUTER_ADDRESS
      if userApproval < atomicAmount then
        ([CustodyAction.approveRouter executorAddress UINT256_MAX], Outcome.ok ())
      else ([], Outcome.ok ())
    else
      let executorApproval := chain.allowance executorAddress ROUTER_ADDRESS
      let routerActions :=
        if executorApproval < atomicAmount then
          [CustodyAction.approveRouter executorAddress UINT256_MAX]
        else []
      let userApproval := chain.allowance walletAddress executorAddress
      if userApproval < atomicAmount then
        (routerActions,
          Outcome.err ("Insufficient user approval" ++ (": need " ++ amount ++ " " ++
            fromTok.symbol ++ " but user only approved " ++
            formatUnitsStr userApproval fromTok.decimals)))
      else
        (routerActions ++ [CustodyAction.transferFrom walletAddress executorAddress atomicAmount],
          Outcome.ok ())

/-- Hex digit test used by the address and calldata validation regexes. -/
def isHexDigitChar (c : Char) : Bool :=
  c.isDigit || (('a' ≤ c && c ≤ 'f') || ('A' ≤ c && c ≤ 'F'))

/-- The 20-byte address regex of signAndSendTransaction. -/
def validAddress (s : String) : Bool :=
  s.length == 42 && startsWithStr s "0x" && (s.toList.drop 2).all isHexDigitChar

/-- viem isHex for calldata: 0x followed by hex digits. -/
def isHexStr (s : String) : Bool :=
  startsWithStr s "0x" && (s.toList.drop 2).all isHexDigitChar

/-- Chain oracle for one signAndSendTransaction call: the executor ETH
balance, the eth_estimateGas answer, the broadcast outcome and the
receipt. -/
structure SendEnv where
  balance : Nat
  gasEstimate : Nat
  sendResult : Outcome String
  receiptReverted : Bool
  receiptGasUsed : Nat

/-- Request parameters actually handed to sendTransaction. -/
structure TxParams where
  toAddr : String
  value : Nat
  data : Option String
  gas : Nat
  nonce : Option Nat
  maxFeePerGas : Option Nat
  maxPriorityFeePerGas : Option Nat
  gasPrice : Option Nat
deriving DecidableEq, Repr

/-- Observable outcome of signAndSendTransaction: how many broadcast
attempts were made, how many transactionCount (nonce) RPC queries were
issued, the parameters of the broadcast (when one happened) and the
result. -/
structure SendOutcome where
  sendAttempts : Nat
  nonceRpcQueries : Nat
  txParams : Option TxParams
  result : Outcome (String × Nat)
deriving Repr

/-- Validation failure before any broadcast. -/
def sendValidationFailure (msg : String) : SendOutcome :=
  { sendAttempts := 0, nonceRpcQueries := 0, txParams := none, result := Outcome.err msg }

/-- signAndSendTransaction (transactionExecutor.ts): validate chainId, to
and data; check the ETH balance when value is positive; estimate gas and
add a 20 percent buffer (overridden by an explicit gas field); take the
nonce only from the optional nonce field of the plan; overlay EIP-1559 or
legacy fees; broadcast once and wait for the receipt. There is no nonce
cache and no retry: every send error propagates after the single attempt
(the catch merely rewrites the message, modelled as a uniform wrap). -/
def signAndSendTransaction (env : SendEnv) (tx : TransactionPlan) : SendOutcome :=
  if tx.chainId = "" then
    sendValidationFailure "Transaction object missing required chainId field"
  else if tx.chainId ≠ "42161" then
    sendValidationFailure
      ("Unsupported chainId: " ++ tx.chainId ++ ". Currently only Arbitrum (42161) is supported.")
  else if !(validAddress tx.«to») then
    sendValidationFailure ("Transaction object invalid to field: " ++ tx.«to»)
  else if (match tx.data with | some d => !(isHexStr d) | none => false) then
    sendValidationFailure ("Transaction object invalid data field (not hex): " ++
      (tx.data.getD ""))
  else
    match (match tx.value with | none => some 0 | some v => digitsToNat? v) with
    | none => sendValidationFailure "Invalid transaction value"
    | some txValue =>
      if 0 < txValue && env.balance < txValue then
        sendValidationFailure "Insufficient ETH balance"
      else
        match (match tx.gas with
          | some g => digitsToNat? g
          | none => some (env.gasEstimate * 12 / 10)) with
        | none => sendValidationFailure "Invalid transaction gas"
        | some gasVal =>
          let eip1559 := tx.maxFeePerGas.isSome && tx.maxPriorityFeePerGas.isSome
          let params : TxParams :=
            { toAddr := tx.«to»
              value := txValue
              data := tx.data
              gas := gasVal
              nonce := tx.nonce.bind digitsToNat?
              maxFeePerGas := if eip1559 then tx.maxFeePerGas.bind digitsToNat? else none
              maxPriorityFeePerGas :=
                if eip1559 then tx.maxPriorityFeePerGas.bind digitsToNat? else none
              gasPrice := if eip1559 then none else tx.gasPrice.bind digitsToNat? }
          match env.sendResult with
          | Outcome.err e =>
            { sendAttempts := 1, nonceRpcQueries := 0, txParams := some params
              result := Outcome.err ("Transaction failed: " ++ e) }
          | Outcome.ok txHash =>
            if env.receiptReverted then
              { sendAttempts := 1, nonceRpcQueries := 0, txParams := some params
                result := Outcome.err ("Transaction " ++ txHash ++
                  " failed (reverted). Check blockchain explorer for details.") }
            else
              { sendAttempts := 1, nonceRpcQueries := 0, txParams := some params
                result := Outcome.ok (txHash, env.receiptGasUsed) }

/-- Chain oracle for one depositToVault call (VaultInteractions): the
executor token balance, the executor-to-vault allowance, the user share
balances around the deposit, the deposit transaction hash and whether the
deposit write throws. -/
structure VaultChain where
  executorTokenBalance : Nat
  executorVaultAllowance : Nat
  userSharesBefore : Nat
  userSharesAfter : Nat
  depositTxHash : String
  depositThrows : Option String
deriving DecidableEq, Repr

/-- Result record of VaultInteractions.depositToVault. -/
structure VaultDepositResult where
  shareTokens : String
  depositTxHash : String
  success : Bool
  error : Option String
deriving DecidableEq, Repr

/-- depositToVault (VaultInteractions): parse the amount, check the
executor token balance, approve the vault if the allowance is short,
deposit, and report shares as the user share-balance delta. Every thrown
error is caught inside the method and returned as a record with success
false — the method itself never throws to its caller. -/
def depositToVault (chain : VaultChain) (amount : String) (decimals : Nat) :
    VaultDepositResult :=
  match parseUnitsStr amount decimals with
  | none =>
    { shareTokens := "0", depositTxHash := "", success := false
      error := some ("Invalid amount: " ++ amount) }
  | some atomicAmount =>
    if chain.executorTokenBalance < atomicAmount then
      { shareTokens := "0", depositTxHash := "", success := false
        error := some ("Insufficient token balance: need " ++ amount ++ " but have " ++
          formatUnitsStr chain.executorTokenBalance decimals) }
    else
      match chain.depositThrows with
      | some m =>
        { shareTokens := "0", depositTxHash := "", success := false, error := some m }
      | none =>
        { shareTokens :=
            formatUnitsStr (chain.userSharesAfter - chain.userSharesBefore) decimals
          depositTxHash := chain.depositTxHash
          success := true
          error := none }

/-- Oracle context for one transactionSigningAfterHook invocation (vault
aware version): the transaction executor outcome, the executor destination
token balance measured before and after the swap, the vault chain oracle,
the plan row and the wall clock. -/
structure HookEnv where
  executorResult : Outcome String
  balanceBefore : Nat
  balanceAfter : Nat
  vaultChain : VaultChain
  planRow : Option DcaPlan
  now : Nat

/-- Data the prepared-transaction result hands to the after hook. The
hasVaultSupport flag also stands for the vault mapping being present. -/
structure HookArgs where
  planId : Option String
  fromAmount : String
  toAmount : String
  exchangeRate : String
  argsAmount : String
  toToken : String
  hasVaultSupport : Bool
  vaultAddress : Option String
  vaultDecimals : Nat
deriving DecidableEq, Repr

/-- Observable effects of one after-hook invocation. -/
structure HookOutcome where
  records : List ExecRecord
  updatedPlan : Option DcaPlan
  holdingsUpdated : Bool
  task : TaskOutcome
deriving Repr

/-- Empty strings are falsy in the source disjunctions storing the vault
columns. -/
def stringOrNull (s : String) : Option String :=
  if s = "" then none else some s

/-- transactionSigningAfterHook (vault-aware version): execute the batch;
on a thrown error record one FAILED row (when a planId is present) and
return an error task. On success, when vault support is configured and the
balance delta is positive, call depositToVault; whether or not the deposit
succeeded, record one SUCCESS row (the executor result carries no
gasCostEth field, so the stored gasFee value is absent) and advance the
plan; the vault holdings are updated only when the deposit succeeded. -/
def transactionSigningAfterHookModel (env : HookEnv) (h : HookArgs) : HookOutcome :=
  match env.executorResult with
  | Outcome.err e =>
    { records :=
        match h.planId with
        | some pid =>
          [{ planId := some pid, fromAmount := h.argsAmount, toAmount := "0"
             exchangeRate := "0", gasFee := none, txHash := none
             status := ExecStatus.FAILED, errorMessage := some e
             vaultAddress := none, shareTokens := none, depositTxHash := none }]
        | none => []
      updatedPlan := none
      holdingsUpdated := false
      task := TaskOutcome.failed e }
  | Outcome.ok txHash =>
    let vaultActive := h.hasVaultSupport && h.vaultAddress.isSome
    let receivedWei := env.balanceAfter - env.balanceBefore
    let vaultResult : Option VaultDepositResult :=
      if vaultActive && decide (0 < receivedWei) then
        some (depositToVault env.vaultChain (formatUnitsStr receivedWei h.vaultDecimals)
          h.vaultDecimals)
      else none
    let holdingsUpdated :=
      match vaultResult with
      | some r => r.success
      | none => false
    let successRecord : ExecRecord :=
      { planId := h.planId
        fromAmount := h.fromAmount
        toAmount := h.toAmount
        exchangeRate := h.exchangeRate
        gasFee := none
        txHash := some txHash
        status := ExecStatus.SUCCESS
        errorMessage := none
        vaultAddress := h.vaultAddress
        shareTokens :=
          match vaultResult with
          | some r => stringOrNull r.shareTokens
          | none => none
        depositTxHash :=
          match vaultResult with
          | some r => stringOrNull r.depositTxHash
          | none => none }
    { records := match h.planId with | some _ => [successRecord] | none => []
      updatedPlan :=
        if h.planId.isSome then env.planRow.map (fun p => updatePlanAfterSuccess p env.now)
        else none
      holdingsUpdated := holdingsUpdated
      task := TaskOutcome.completed
        ("DCA swap executed: " ++ h.fromAmount ++ " → " ++ h.toAmount ++
          " (tx: " ++ txHash ++ ")") }

/-! Example inputs used by witnesses and concrete evaluations. They mirror
the single-happy-path seed scenario of the specification. -/

/-- Token registry with the Arbitrum USDC and ETH descriptors. -/
def happyTokenMap : List (String × List TokenInfo) :=
  [("USDC", [{ chainId := 42161, address := "0xaf88d065e77c8cC2239327C5EDb3A432268e5831"
               decimals := 6, symbol := "USDC", name := "USD Coin" }]),
   ("ETH", [{ chainId := 42161, address := "0x0000000000000000000000000000000000000000"
              decimals := 18, symbol := "ETH", name := "Ether" }])]

/-- A swap transaction as the quoting service returns it. -/
def happyTx : TransactionPlan :=
  { chainId := "42161", «to» := ROUTER_ADDRESS, value := some "0", data := some "0xabcdef"
    gas := none, gasPrice := none, maxFeePerGas := none, maxPriorityFeePerGas := none
    nonce := none }

/-- Quote response of the seed scenario: two transactions, estimation with
quoteTokenDelta 0.03 and effectivePrice 3333.33. -/
def happyResponse : SwapResponse :=
  { transactions := [happyTx, happyTx]
    estimation := some { baseTokenDelta := "100", quoteTokenDelta := "0.03"
                         effectivePrice := "3333.33" } }

/-- Plan row of the seed scenario. -/
def happyPlan : DcaPlan :=
  { id := "P1", userAddress := "0xUSER", fromToken := "USDC", toToken := "ETH"
    amount := "100", intervalMinutes := 10080, durationWeeks := 4, slippage := "2"
    status := DcaStatus.ACTIVE, executionCount := 0, totalExecutions := 4
    nextExecution := some 999000, updatedAt := 0 }

/-- Tool oracle of the seed scenario: everything succeeds, the executor
reports hash 0xabc and 210000 summed gas units. -/
def happyEnv : ToolEnv :=
  { executionEnabled := true
    mcpAvailable := true
    tokenMap := happyTokenMap
    quoteResult := fun _ => Outcome.ok happyResponse
    executorResult := fun _ => Outcome.ok { txHash := "0xabc", gasUsed := 210000 }
    planRow := some happyPlan
    now := 1000000 }

/-- Tool arguments of the seed scenario. -/
def happyArgs : ExecArgs :=
  { planId := "P1", fromToken := "USDC", toToken := "ETH", amount := "100"
    userAddress := "0xUSER", slippage := "2" }

/-- The completed-task message of the seed scenario. -/
def happyMsg : String := "DCA swap executed: 100 USDC → 0.03 ETH (tx: 0xabc)"

/-- Unfolding executeDCASwapToolModel on a failing stage chain. -/
theorem toolModel_of_stages_err (env : ToolEnv) (args : ExecArgs)
    (qr : Option QuoteRequest) (e : String)
    (hst : toolStages env args = (qr, Outcome.err e)) :
    executeDCASwapToolModel env args = failOut args qr e := by
  unfold executeDCASwapToolModel
  rw [hst]

/-- Unfolding executeDCASwapToolModel on a successful stage chain. -/
theorem toolModel_of_stages_ok (env : ToolEnv) (args : ExecArgs)
    (qr : Option QuoteRequest) (resp : SwapResponse) (er : DcaExecResult)
    (hst : toolStages env args = (qr, Outcome.ok (resp, er))) :
    executeDCASwapToolModel env args =
      { quoteRequest := qr
        records := [successExecRecord args resp er]
        updatedPlan := env.planRow.map (fun p => updatePlanAfterSuccess p env.now)
        task := TaskOutcome.completed (successMsg args resp er) } := by
  unfold executeDCASwapToolModel
  rw [hst]

/-- Claim C1: for every pipeline invocation that succeeds, the plan row is
updated exactly once: executionCount becomes the previous count plus one;
when the new count equals totalExecutions the status becomes COMPLETED and
nextExecutionAt becomes null, otherwise the status stays ACTIVE and
nextExecutionAt becomes the current time plus intervalMinutes minutes. The
hypothesis executionCount < totalExecutions is the plan-store invariant
for plans that are still executing. -/
theorem scheduler_success_update_advances_plan
    (env : ToolEnv) (args : ExecArgs) (p : DcaPlan) (m : String)
    (htask : (executeDCASwapToolModel env args).task = TaskOutcome.completed m)
    (hrow : env.planRow = some p)
    (hcount : p.executionCount < p.totalExecutions) :
    (executeDCASwapToolModel env args).updatedPlan =
      some (updatePlanAfterSuccess p env.now) ∧
    (updatePlanAfterSuccess p env.now).executionCount = p.executionCount + 1 ∧
    (p.executionCount + 1 = p.totalExecutions →
      (updatePlanAfterSuccess p env.now).status = DcaStatus.COMPLETED ∧
      (updatePlanAfterSuccess p env.now).nextExecution = none) ∧
    (p.executionCount + 1 ≠ p.totalExecutions →
      (updatePlanAfterSuccess p env.now).status = DcaStatus.ACTIVE ∧
      (updatePlanAfterSuccess p env.now).nextExecution =
        some (env.now + p.intervalMinutes * 60 * 1000)) := by
  rcases hst : toolStages env args with ⟨qr, res⟩
  cases res with
  | err e =>
    rw [toolModel_of_stages_err env args qr e hst] at htask
    exact absurd htask (by simp [failOut])
  | ok pr =>
    rcases pr with ⟨resp, er⟩
    rw [toolModel_of_stages_ok env args qr resp er hst]
    refine ⟨by simp [hrow], by simp [updatePlanAfterSuccess], ?_, ?_⟩
    · intro heq
      have hle : p.totalExecutions ≤ p.executionCount + 1 := le_of_eq heq.symm
      constructor <;> simp [updatePlanAfterSuccess, hle]
    · intro hne
      have hlt : ¬ (p.totalExecutions ≤ p.executionCount + 1) := by omega
      constructor <;> simp [updatePlanAfterSuccess, hlt]

/-- Witness for C1 at the seed scenario: the pipeline succeeds, the plan
advances to executionCount 1 and is rescheduled one interval later. -/
theorem scheduler_success_update_advances_plan_witness :
    (executeDCASwapToolModel happyEnv happyArgs).updatedPlan =
      some (updatePlanAfterSuccess happyPlan 1000000) ∧
    (updatePlanAfterSuccess happyPlan 1000000).executionCount = 1 ∧
    (updatePlanAfterSuccess happyPlan 1000000).status = DcaStatus.ACTIVE ∧
    (updatePlanAfterSuccess happyPlan 1000000).nextExecution =
      some (1000000 + 10080 * 60 * 1000) := by
  have h := scheduler_success_update_advances_plan happyEnv happyArgs happyPlan happyMsg
    (by decide) (by decide) (by decide)
  have h4 := h.2.2.2 (by decide)
  exact ⟨h.1, h.2.1, h4.1, h4.2⟩

/-- Claim C4 (code bug): at the seed scenario the SUCCESS row does carry a
non-null txHash, but the stored gasFee is the raw summed gas-unit count
(toString of the executor gasUsed, here 210000) rather than the total ETH
cost decimal string the data model documents; the executor result carries
no ETH cost at all, so the hook path stores no gasFee value either
(second conjunct block). -/
theorem success_record_stores_gas_units :
    ((executeDCASwapToolModel happyEnv happyArgs).records.map ExecRecord.status =
      [ExecStatus.SUCCESS]) ∧
    ((executeDCASwapToolModel happyEnv happyArgs).records.map ExecRecord.txHash =
      [some "0xabc"]) ∧
    ((executeDCASwapToolModel happyEnv happyArgs).records.map ExecRecord.gasFee =
      [some (toString (210000 : Nat))]) ∧
    toString (210000 : Nat) = "210000" := by
  refine ⟨by decide, by decide, by decide, by decide⟩

/-- Claim C5: every pipeline invocation that ends in failure writes exactly
one FAILED ExecutionHistory row with null txHash, null gasFee and the root
error message, does not advance the plan, and surfaces the error in the
returned task. -/
theorem failed_pipeline_writes_single_failed_record
    (env : ToolEnv) (args : ExecArgs) (e : String)
    (htask : (executeDCASwapToolModel env args).task = TaskOutcome.failed e) :
    (executeDCASwapToolModel env args).records = [failedExecRecord args e] ∧
    (executeDCASwapToolModel env args).updatedPlan = none ∧
    (failedExecRecord args e).status = ExecStatus.FAILED ∧
    (failedExecRecord args e).txHash = none ∧
    (failedExecRecord args e).gasFee = none ∧
    (failedExecRecord args e).errorMessage = some e ∧
    (failedExecRecord args e).planId = some args.planId := by
  rcases hst : toolStages env args with ⟨qr, res⟩
  cases res with
  | ok pr =>
    rcases pr with ⟨resp, er⟩
    rw [toolModel_of_stages_ok env args qr resp er hst] at htask
    exact absurd htask (by simp)
  | err m =>
    rw [toolModel_of_stages_err env args qr m hst] at htask ⊢
    have hme : m = e := by
      simpa [failOut] using htask
    subst hme
    exact ⟨rfl, rfl, rfl, rfl, rfl, rfl, rfl⟩

/-- Tool oracle where the quoting service call throws. -/
def failEnv : ToolEnv :=
  { happyEnv with quoteResult := fun _ => Outcome.err "boom" }

/-- Witness for C5: with a failing quote call, the single recorded row is
the FAILED row with null txHash, null gasFee, the root message and no plan
update. -/
theorem failed_pipeline_writes_single_failed_record_witness :
    (executeDCASwapToolModel failEnv happyArgs).records =
      [failedExecRecord happyArgs "Failed to get swap plan: boom"] ∧
    (executeDCASwapToolModel failEnv happyArgs).updatedPlan = none ∧
    (failedExecRecord happyArgs "Failed to get swap plan: boom").txHash = none := by
  have h := failed_pipeline_writes_single_failed_record failEnv happyArgs
    "Failed to get swap plan: boom" (by decide)
  exact ⟨h.1, h.2.1, h.2.2.2.1⟩

/-- Characterisation of the due-plan predicate. -/
theorem isDuePlan_iff (now : Nat) (p : DcaPlan) :
    isDuePlan now p = true ↔
      (p.status = DcaStatus.ACTIVE ∧ ∃ t, p.nextExecution = some t ∧ t ≤ now) := by
  unfold isDuePlan
  cases h : p.nextExecution <;> simp [h]

/-- Claim C2: in every scheduler tick at time now, the selected plans are
exactly those with status ACTIVE and a non-null nextExecutionAt ≤ now
(in particular nextExecutionAt = now is selected and nextExecutionAt > now
or null never is), and they are processed in ascending nextExecutionAt
order. -/
theorem scheduler_tick_selects_exactly_due_plans (db : List DcaPlan) (now : Nat) :
    (∀ p, p ∈ processDuePlansSelection db now ↔
      (p ∈ db ∧ p.status = DcaStatus.ACTIVE ∧
        ∃ t, p.nextExecution = some t ∧ t ≤ now)) ∧
    List.Sorted planOrder (processDuePlansSelection db now) := by
  constructor
  · intro p
    rw [processDuePlansSelection, List.mem_insertionSort, List.mem_filter, isDuePlan_iff]
  · exact List.sorted_insertionSort planOrder _

/-- Claim C3: whenever the re-read at the top of executeDCAPlan finds the
plan row missing or no longer ACTIVE, the whole call skips: the pipeline
tool is never invoked, the store (plans and execution history) is left
unchanged, and the call resolves without error — so a PAUSED or CANCELLED
plan is never executed. -/
theorem scheduler_reread_skips_inactive_plan
    (db : SchedDB) (planId : String) (tool : SchedDB → SchedDB × TaskOutcome) (n : Nat)
    (hskip : shouldSkipPlan db.plans planId = true) :
    (executeDCAPlanModel db planId tool (n + 1)).toolInvocations = 0 ∧
    (executeDCAPlanModel db planId tool (n + 1)).db = db ∧
    (executeDCAPlanModel db planId tool (n + 1)).resolved = true := by
  unfold executeDCAPlanModel executeDCAPlanLoop
  rw [hskip]
  exact ⟨rfl, rfl, rfl⟩

/-- Store with a single plan that has been paused between selection and
execution. -/
def pausedDb : SchedDB :=
  { plans := [{ happyPlan with status := DcaStatus.PAUSED }], execs := [] }

/-- Witness for C3: the paused plan is skipped — no tool invocation, no
state change, clean return — for any tool behaviour (here one that would
fail if it ever ran). -/
theorem scheduler_reread_skips_inactive_plan_witness :
    (executeDCAPlanModel pausedDb "P1"
      (fun _ => (⟨[], []⟩, TaskOutcome.failed "must not run")) 3).toolInvocations = 0 ∧
    (executeDCAPlanModel pausedDb "P1"
      (fun _ => (⟨[], []⟩, TaskOutcome.failed "must not run")) 3).db = pausedDb := by
  have h := scheduler_reread_skips_inactive_plan pausedDb "P1"
    (fun _ => (⟨[], []⟩, TaskOutcome.failed "must not run")) 2 (by decide)
  exact ⟨h.1, h.2.1⟩

/-- A well-formed swap transaction whose broadcast fails with a
nonce-shaped error. -/
def nonceTx : TransactionPlan :=
  { chainId := "42161", «to» := ROUTER_ADDRESS, value := none, data := some "0xabcdef"
    gas := none, gasPrice := none, maxFeePerGas := none, maxPriorityFeePerGas := none
    nonce := none }

/-- Chain oracle whose sendTransaction answers with a nonce-shaped error. -/
def nonceErrEnv : SendEnv :=
  { balance := 0, gasEstimate := 100000, sendResult := Outcome.err "nonce too low"
    receiptReverted := false, receiptGasUsed := 0 }

/-- Counterexample to claim C6: the message nonce too low is nonce-shaped,
yet the executor makes exactly one send attempt, issues no nonce
(transactionCount) query at all, and propagates the failure immediately —
there is no nonce cache and no 3-attempt retry with backoff anywhere in
DCATransactionExecutor.signAndSendTransaction. -/
theorem executor_nonce_error_not_retried_cex :
    isNonceShapedError "nonce too low" = true ∧
    (signAndSendTransaction nonceErrEnv nonceTx).sendAttempts = 1 ∧
    (signAndSendTransaction nonceErrEnv nonceTx).nonceRpcQueries = 0 ∧
    (signAndSendTransaction nonceErrEnv nonceTx).result =
      Outcome.err ("Transaction failed: " ++ "nonce too low") := by
  refine ⟨by decide, by decide, by decide, by decide⟩

/-- Claim C6 as amended: the transaction executor keeps no nonce cache and
performs no retries at all. It never queries the chain for a transaction
count, makes at most one broadcast attempt per transaction, propagates
every send error (nonce-shaped or not) immediately after that single
attempt, and the only nonce it ever sets is the optional nonce field of
the incoming TransactionPlan. -/
theorem executor_no_nonce_cache_no_retry (env : SendEnv) (tx : TransactionPlan) :
    (signAndSendTransaction env tx).nonceRpcQueries = 0 ∧
    (signAndSendTransaction env tx).sendAttempts ≤ 1 ∧
    (∀ e, env.sendResult = Outcome.err e →
      (signAndSendTransaction env tx).sendAttempts = 1 →
      (signAndSendTransaction env tx).result = Outcome.err ("Transaction failed: " ++ e)) ∧
    (∀ p, (signAndSendTransaction env tx).txParams = some p →
      p.nonce = tx.nonce.bind digitsToNat?) := by
  unfold signAndSendTransaction
  repeat' split
  all_goals
    simp_all [sendValidationFailure]

/-- Witness for the amended C6 at the nonce-error input: zero nonce
queries, the single-attempt failure is exactly the wrapped send error,
and the broadcast carried no nonce (the plan had none). -/
theorem executor_no_nonce_cache_no_retry_witness :
    (signAndSendTransaction nonceErrEnv nonceTx).nonceRpcQueries = 0 ∧
    (signAndSendTransaction nonceErrEnv nonceTx).result =
      Outcome.err ("Transaction failed: " ++ "nonce too low") := by
  have h := executor_no_nonce_cache_no_retry nonceErrEnv nonceTx
  exact ⟨h.1, h.2.2.1 "nonce too low" rfl (by decide)⟩

/-- Claim C7: in separate-executor custody, when the user has granted the
executor at least the atomic amount the insufficient-approval branch is
unreachable and a transferFrom of exactly the atomic amount is issued;
when the grant is below the atomic amount the call fails with a message
starting with the insufficient-approval text and no transferFrom is ever
issued. -/
theorem custody_separate_executor_approval_gate
    (chain : ChainState) (fromTok : TokenInfo) (amount : String)
    (user executor : String) (atomicAmount : Nat)
    (hSep : toLowerStr user ≠ toLowerStr executor)
    (hAmt : custodyAtomicAmount fromTok amount = some atomicAmount) :
    (atomicAmount ≤ chain.allowance user executor →
      (handleTokenApprovalsAndTransfer chain fromTok amount user executor).2 =
        Outcome.ok () ∧
      CustodyAction.transferFrom user executor atomicAmount ∈
        (handleTokenApprovalsAndTransfer chain fromTok amount user executor).1) ∧
    (chain.allowance user executor < atomicAmount →
      (∃ rest,
        (handleTokenApprovalsAndTransfer chain fromTok amount user executor).2 =
          Outcome.err ("Insufficient user approval" ++ rest)) ∧
      ∀ f t a, CustodyAction.transferFrom f t a ∉
        (handleTokenApprovalsAndTransfer chain fromTok amount user executor).1) := by
  unfold handleTokenApprovalsAndTransfer
  rw [hAmt]
  simp only [if_neg hSep]
  constructor
  · intro hge
    have hnlt : ¬ (chain.allowance user executor < atomicAmount) := by omega
    constructor
    · simp [hnlt]
    · simp [hnlt]
  · intro hlt
    constructor
    · exact ⟨": need " ++ amount ++ " " ++ fromTok.symbol ++ " but user only approved " ++
        formatUnitsStr (chain.allowance user executor) fromTok.decimals, by simp [hlt]⟩
    · intro f t a
      simp only [if_pos hlt]
      split <;> simp

/-- Chain state where the user granted the executor 200 USDC atomic units. -/
def approvedChain : ChainState :=
  { allowance := fun owner spender =>
      if owner = "0xUSER" && spender = "0xEXEC" then 200000000 else 0 }

/-- Chain state of the insufficient-approval seed scenario: the user
granted only 50 atomic units. -/
def underApprovedChain : ChainState :=
  { allowance := fun owner spender =>
      if owner = "0xUSER" && spender = "0xEXEC" then 50 else 0 }

/-- USDC token descriptor used by the custody witnesses. -/
def usdcTok : TokenInfo :=
  { chainId := 42161, address := "0xaf88d065e77c8cC2239327C5EDb3A432268e5831"
    decimals := 6, symbol := "USDC", name := "USD Coin" }

/-- Witness for C7: with a 200 USDC grant a 100 USDC pull succeeds with a
transferFrom of exactly 100000000 atomic units, and with a 50 atomic-unit
grant the same pull fails with the insufficient-approval message and no
transferFrom at all. -/
theorem custody_separate_executor_approval_gate_witness :
    ((handleTokenApprovalsAndTransfer approvedChain usdcTok "100" "0xUSER" "0xEXEC").2 =
      Outcome.ok () ∧
     CustodyAction.transferFrom "0xUSER" "0xEXEC" 100000000 ∈
      (handleTokenApprovalsAndTransfer approvedChain usdcTok "100" "0xUSER" "0xEXEC").1) ∧
    ((∃ rest,
        (handleTokenApprovalsAndTransfer underApprovedChain usdcTok "100" "0xUSER"
          "0xEXEC").2 = Outcome.err ("Insufficient user approval" ++ rest)) ∧
      ∀ f t a, CustodyAction.transferFrom f t a ∉
        (handleTokenApprovalsAndTransfer underApprovedChain usdcTok "100" "0xUSER"
          "0xEXEC").1) := by
  constructor
  · exact (custody_separate_executor_approval_gate approvedChain usdcTok "100"
      "0xUSER" "0xEXEC" 100000000 (by decide) (by decide)).1 (by decide)
  · exact (custody_separate_executor_approval_gate underApprovedChain usdcTok "100"
      "0xUSER" "0xEXEC" 100000000 (by decide) (by decide)).2 (by decide)

/-- Whenever the tool pipeline issues a quote request, its
slippageTolerance is the slippage argument verbatim. -/
theorem toolStages_slippage_passthrough (env : ToolEnv) (args : ExecArgs)
    (req : QuoteRequest) (h : (toolStages env args).1 = some req) :
    req.slippageTolerance = args.slippage := by
  unfold toolStages at h
  repeat' split at h
  all_goals try simp_all [mkQuoteRequest]
  all_goals (subst h; rfl)

/-- The quote request reported by the tool model is the one the stages
issued. -/
theorem toolModel_quoteRequest (env : ToolEnv) (args : ExecArgs) :
    (executeDCASwapToolModel env args).quoteRequest = (toolStages env args).1 := by
  unfold executeDCASwapToolModel
  rcases hst : toolStages env args with ⟨qr, res⟩
  cases res <;> rfl

/-- Stored plan with a slippage of 0.1 percent. -/
def slipPlan : DcaPlan :=
  { happyPlan with slippage := "0.1" }

/-- Tool oracle for the stored low-slippage plan (the quote answer itself
is irrelevant: the request is recorded before the answer is read). -/
def slipEnv : ToolEnv :=
  { happyEnv with planRow := some slipPlan }

/-- Counterexample to claim C8: a stored plan with slippage 0.1 — which is
below the 0.3 floor, as the third conjunct shows on the exact parseFloat
semantics — is executed through the pipeline with slippageTolerance 0.1,
not 0.3: the clamp does not run on this path. -/
theorem pipeline_slippage_not_clamped_cex :
    (schedulerToolArgs slipPlan).slippage = "0.1" ∧
    ((executeDCASwapToolModel slipEnv (schedulerToolArgs slipPlan)).quoteRequest.map
      QuoteRequest.slippageTolerance) = some "0.1" ∧
    (parseDecimalScaled? "0.1").map ltThreeTenths = some true ∧
    clampSlippage (some "0.1") = "0.3" ∧
    "0.1" ≠ "0.3" := by
  refine ⟨by decide, by decide, by decide, by decide, by decide⟩

/-- Claim C8 as amended: the 0.3 percent slippage floor is applied only in
createDCAPlanTool immediately before the first execution it triggers; the
pipeline tool itself passes its slippage argument to the quoting service
verbatim, and the scheduler fills that argument with the stored plan
slippage unchanged, so scheduled executions are quoted at the stored
value even when it is below 0.3. -/
theorem slippage_clamped_only_on_creation_path :
    (∀ (env : ToolEnv) (args : ExecArgs) (req : QuoteRequest),
      (executeDCASwapToolModel env args).quoteRequest = some req →
      req.slippageTolerance = args.slippage) ∧
    (∀ plan : DcaPlan, (schedulerToolArgs plan).slippage = plan.slippage) ∧
    (∀ s v, parseDecimalScaled? s = some v → ltThreeTenths v = true →
      clampSlippage (some s) = "0.3") ∧
    (∀ s v, parseDecimalScaled? s = some v → ltThreeTenths v = false →
      clampSlippage (some s) = s) ∧
    (∀ s, parseDecimalScaled? s = none → clampSlippage (some s) = "0.3") := by
  refine ⟨?_, fun _ => rfl, ?_, ?_, ?_⟩
  · intro env args req h
    rw [toolModel_quoteRequest] at h
    exact toolStages_slippage_passthrough env args req h
  · intro s v hparse hlt
    unfold clampSlippage
    simp [hparse, hlt]
  · intro s v hparse hlt
    unfold clampSlippage
    simp [hparse, hlt]
  · intro s hparse
    unfold clampSlippage
    simp [hparse]

/-- Witness for the amended C8: at the stored 0.1-percent plan the quote
request carries 0.1 verbatim, while the creation-path clamp would have
produced 0.3. -/
theorem slippage_clamped_only_on_creation_path_witness :
    ((executeDCASwapToolModel slipEnv (schedulerToolArgs slipPlan)).quoteRequest.map
      QuoteRequest.slippageTolerance) = some (schedulerToolArgs slipPlan).slippage ∧
    clampSlippage (some "0.1") = "0.3" := by
  have h := slippage_clamped_only_on_creation_path
  constructor
  · cases hq : (executeDCASwapToolModel slipEnv (schedulerToolArgs slipPlan)).quoteRequest with
    | none => exact absurd hq (by decide)
    | some req =>
      simp only [Option.map_some']
      rw [h.1 slipEnv (schedulerToolArgs slipPlan) req hq]
  · exact h.2.2.1 "0.1" (1, 1) (by decide) (by decide)

/-- Vault chain oracle where the executor holds no destination tokens, so
the deposit fails its balance check. -/
def emptyVaultChain : VaultChain :=
  { executorTokenBalance := 0, executorVaultAllowance := 0, userSharesBefore := 0
    userSharesAfter := 0, depositTxHash := "", depositThrows := none }

/-- Hook oracle where the swap succeeds and delivers 100 USDC (6 decimals)
to the executor, but the vault deposit then fails. -/
def vaultFailEnv : HookEnv :=
  { executorResult := Outcome.ok "0xabc"
    balanceBefore := 0
    balanceAfter := 100000000
    vaultChain := emptyVaultChain
    planRow := some happyPlan
    now := 1000000 }

/-- Hook arguments with vault support configured for the destination
token. -/
def vaultHookArgs : HookArgs :=
  { planId := some "P1", fromAmount := "100", toAmount := "100", exchangeRate := "1"
    argsAmount := "100", toToken := "USDC", hasVaultSupport := true
    vaultAddress := some "0xVAULT", vaultDecimals := 6 }

/-- Counterexample to claim C9: the destination token has a configured
vault, the post-swap balance delta is positive (100 USDC) and the vault
deposit fails (depositToVault returns success false on its balance
check) — yet the pipeline does not fail: it still records exactly one
SUCCESS Execution row and advances the plan; only the holdings update is
skipped. -/
theorem vault_deposit_failure_pipeline_cex :
    (depositToVault emptyVaultChain (formatUnitsStr 100000000 6) 6).success = false ∧
    ((transactionSigningAfterHookModel vaultFailEnv vaultHookArgs).records.map
      ExecRecord.status) = [ExecStatus.SUCCESS] ∧
    ((transactionSigningAfterHookModel vaultFailEnv vaultHookArgs).updatedPlan.map
      DcaPlan.executionCount) = some 1 ∧
    (transactionSigningAfterHookModel vaultFailEnv vaultHookArgs).holdingsUpdated =
      false := by
  refine ⟨by decide, by decide, by decide, by decide⟩

/-- Claim C9 as amended: a vault deposit failure is contained, not fatal:
depositToVault catches every error and returns success false, and the
after hook then still records exactly one SUCCESS Execution row and
advances the plan exactly as on a full success; only the vault-holdings
update is skipped. -/
theorem vault_deposit_failure_still_records_success
    (env : HookEnv) (h : HookArgs) (pid txHash : String)
    (hexec : env.executorResult = Outcome.ok txHash)
    (hpid : h.planId = some pid)
    (hvault : h.hasVaultSupport = true)
    (haddr : h.vaultAddress.isSome = true)
    (hrecv : 0 < env.balanceAfter - env.balanceBefore)
    (hfail : (depositToVault env.vaultChain
      (formatUnitsStr (env.balanceAfter - env.balanceBefore) h.vaultDecimals)
      h.vaultDecimals).success = false) :
    ((transactionSigningAfterHookModel env h).records.map ExecRecord.status) =
      [ExecStatus.SUCCESS] ∧
    (transactionSigningAfterHookModel env h).holdingsUpdated = false ∧
    (transactionSigningAfterHookModel env h).updatedPlan =
      env.planRow.map (fun p => updatePlanAfterSuccess p env.now) ∧
    (∃ m, (transactionSigningAfterHookModel env h).task = TaskOutcome.completed m) := by
  unfold transactionSigningAfterHookModel
  rw [hexec]
  simp only [hvault, haddr, Bool.true_and, Bool.and_true, Bool.and_self,
    decide_eq_true hrecv, if_true, hpid, hfail, Option.isSome_some, List.map_cons,
    List.map_nil]
  exact ⟨trivial, trivial, trivial, ⟨_, rfl⟩⟩

/-- Witness for the amended C9 at the concrete failing-deposit input. -/
theorem vault_deposit_failure_still_records_success_witness :
    ((transactionSigningAfterHookModel vaultFailEnv vaultHookArgs).records.map
      ExecRecord.status) = [ExecStatus.SUCCESS] ∧
    (transactionSigningAfterHookModel vaultFailEnv vaultHookArgs).holdingsUpdated =
      false ∧
    (transactionSigningAfterHookModel vaultFailEnv vaultHookArgs).updatedPlan =
      some (updatePlanAfterSuccess happyPlan 1000000) := by
  have h := vault_deposit_failure_still_records_success vaultFailEnv vaultHookArgs
    "P1" "0xabc" rfl rfl rfl rfl (by decide) (by decide)
  exact ⟨h.1, h.2.1, h.2.2.1⟩

/-- Claim C10: startScheduler and stopScheduler are idempotent on the
running state — a second start returns without ticking or creating another
timer, a stop while not running changes nothing — and a timer is only ever
created when none exists, so at most one interval timer exists at any
time. -/
theorem scheduler_start_stop_idempotent
    (s : SchedulerLifecycleState) (execEnabled : Bool) (freshId : Nat) :
    (s.isRunning = true →
      (startScheduler s execEnabled freshId).state = s ∧
      (startScheduler s execEnabled freshId).tickPerformed = false ∧
      (startScheduler s execEnabled freshId).timerCreated = false) ∧
    (s.isRunning = false → stopScheduler s = s) ∧
    ((s.isRunning = false → s.intervalId = none) →
      (startScheduler s execEnabled freshId).timerCreated = true →
      s.intervalId = none) ∧
    ((stopScheduler s).intervalId = none ∨ stopScheduler s = s) := by
  refine ⟨?_, ?_, ?_, ?_⟩
  · intro hrun
    unfold startScheduler
    rw [hrun]
    exact ⟨rfl, rfl, rfl⟩
  · intro hstop
    unfold stopScheduler
    rw [hstop]
    rfl
  · intro hwf hcreated
    unfold startScheduler at hcreated
    by_cases hrun : s.isRunning
    · rw [hrun] at hcreated
      simp at hcreated
    · exact hwf (by simpa using hrun)
  · unfold stopScheduler
    by_cases hrun : s.isRunning
    · left
      simp [hrun]
    · right
      simp [hrun]

/-- Witness for C10: starting an already-running scheduler with a live
timer changes nothing, performs no tick and creates no second timer, and
stopping a stopped scheduler changes nothing. -/
theorem scheduler_start_stop_idempotent_witness :
    (startScheduler { isRunning := true, intervalId := some 7 } true 99).state =
      { isRunning := true, intervalId := some 7 } ∧
    (startScheduler { isRunning := true, intervalId := some 7 } true 99).tickPerformed =
      false ∧
    (startScheduler { isRunning := true, intervalId := some 7 } true 99).timerCreated =
      false ∧
    stopScheduler { isRunning := false, intervalId := none } =
      { isRunning := false, intervalId := none } := by
  have h1 := (scheduler_start_stop_idempotent
    { isRunning := true, intervalId := some 7 } true 99).1 rfl
  have h2 := (scheduler_start_stop_idempotent
    { isRunning := false, intervalId := none } true 99).2.1 rfl
  exact ⟨h1.1, h1.2.1, h1.2.2, h2⟩

end DCA
